import Mathlib

/-!
Shallow embedding of the telegram-job task-assignment backend
(`my_webapp/main.py`, `my_webapp/database.py`) and proofs about its
task-lifecycle, role-directory and identity-verification rules.

Database rows become Lean structures; each HTTP handler's business logic
becomes a pure function from its inputs (the authenticated user, the
stored rows, the request body) to an `Except Err` result carrying the
updated rows.  `HTTPException` codes are mapped to the error taxonomy of
the design document: 403 inside `validate_telegram_data` is
`authFailed`, 403 in the handlers is `forbidden`, 404 is `notFound`,
400 in `update_task` is `invalidState`, 400 in `update_user_role` is
`invalidTarget`.  A Python `AttributeError` raised by dereferencing a
`None` lookup result is modelled by the distinguished outcome
`attrError`, and a NOT NULL constraint violation at commit by
`integrityError`; neither belongs to a documented taxonomy class.
Each pydantic request field is a three-state `Patch` (absent, explicit
JSON null, value), because `dict(exclude_unset=True)` keeps an
explicitly-null field and the handler then writes `NULL` through
`setattr`.
-/

namespace TgJob

/-- `UserRole` enum from `database.py`. -/
inductive UserRole where
  | owner
  | admin
  | worker
deriving DecidableEq, Repr

/-- `TaskStatus` enum from `database.py`. -/
inductive TaskStatus where
  | todo
  | in_progress
  | done
  | disputed
deriving DecidableEq, Repr

/-- `users` table row (`database.py`, class `User`). -/
structure User where
  id : Nat
  telegram_id : Int
  full_name : String
  role : UserRole
deriving DecidableEq, Repr

/-- `tasks` table row (`database.py`, class `Task`).  Datetimes are
modelled as natural-number timestamps; nullable columns as `Option`.
The `status` column has no `nullable=False`, so it is nullable and an
explicitly-null PATCH field can persist `NULL` there. -/
structure Task where
  id : Nat
  title : String
  description : Option String
  status : Option TaskStatus
  dispute_reason : Option String
  is_locked : Bool
  creator_id : Nat
  assignee_id : Nat
  deadline : Option Nat
  created_at : Nat
deriving DecidableEq, Repr

/-- One pydantic request field: absent from the body (`unset`),
explicitly sent as JSON `null` (`null`), or sent with a value (`set`).
`dict(exclude_unset=True)` keeps `null` and `set` fields and drops
`unset` ones. -/
inductive Patch (α : Type) where
  | unset
  | null
  | set (a : α)
deriving DecidableEq, Repr

/-- Reading the field as a plain attribute (`task_data.dispute_reason`):
both `unset` and `null` read as Python `None`. -/
def Patch.toOption : Patch α → Option α
  | Patch.set a => some a
  | _ => none

/-- Python truthiness of the field (`if task_data.status:`): only a
`set` value is truthy — `None` from `unset` or `null` is falsy. -/
def Patch.isSet : Patch α → Bool
  | Patch.set _ => true
  | _ => false

/-- The value a truthy field writes over a nullable column, keeping the
old value otherwise (`if task_data.status: task.status = ...`). -/
def Patch.getSet : Patch α → Option α → Option α
  | Patch.set a, _ => some a
  | _, old => old

/-- `setattr` on a nullable column for a field surviving
`dict(exclude_unset=True)`: `unset` is absent from the dict, `null`
writes `NULL`, `set` writes the value. -/
def Patch.setattr : Patch α → Option α → Option α
  | Patch.unset, old => old
  | Patch.null, _ => none
  | Patch.set a, _ => some a

/-- `TaskUpdate` request body (`main.py`): every field optional, with
pydantic's three states per field. -/
structure TaskUpdate where
  status : Patch TaskStatus := Patch.unset
  title : Patch String := Patch.unset
  description : Patch String := Patch.unset
  deadline : Patch Nat := Patch.unset
  dispute_reason : Patch String := Patch.unset
deriving DecidableEq, Repr

/-- Error taxonomy of the design document plus two out-of-taxonomy
outcomes: `attrError` for a Python `AttributeError` escaping a handler
and `integrityError` for a NOT NULL constraint violation raised at
commit (both surface as a 500). -/
inductive Err where
  | authFailed
  | forbidden
  | notFound
  | invalidState
  | invalidTarget
  | attrError
  | integrityError
deriving DecidableEq, Repr

/-- The standard-update branch of `update_task` (`main.py` lines
161-171): workers must be the assignee and only a truthy `status` field
is honored; admins/owners get every field surviving
`dict(exclude_unset=True)` except `dispute_reason` applied via
`setattr`, so an explicitly-null field writes `NULL`.  Writing `NULL`
into the NOT NULL `title` column makes the commit fail with an
`IntegrityError`, so nothing is persisted in that case. -/
def standard_update (user : User) (task : Task) (r : TaskUpdate) : Except Err Task :=
  if user.role = UserRole.worker then
    if task.assignee_id ≠ user.id then Except.error Err.forbidden
    else Except.ok { task with status := r.status.getSet task.status }
  else
    if r.title = Patch.null then Except.error Err.integrityError
    else Except.ok { task with
      status := r.status.setattr task.status,
      title := (r.title.setattr (some task.title)).getD task.title,
      description := r.description.setattr task.description,
      deadline := r.deadline.setattr task.deadline }

/-- `update_task` handler body after the task has been fetched
(`main.py` lines 147-174).  Branch 1: requested status `disputed`
raises a dispute; branch 2: current status `disputed` with a truthy
status supplied resolves it; otherwise the standard update runs. -/
def update_task (user : User) (task : Task) (r : TaskUpdate) : Except Err Task :=
  if r.status = Patch.set TaskStatus.disputed then
    if task.assignee_id ≠ user.id then Except.error Err.forbidden
    else if task.is_locked then Except.error Err.invalidState
    else Except.ok { task with
      status := some TaskStatus.disputed,
      dispute_reason := r.dispute_reason.toOption }
  else if task.status = some TaskStatus.disputed ∧ r.status.isSet = true then
    if user.role ≠ UserRole.owner then Except.error Err.forbidden
    else Except.ok { task with
      status := r.status.getSet task.status,
      dispute_reason := none,
      is_locked :=
        if r.status.getSet task.status ≠ some TaskStatus.done then true
        else task.is_locked }
  else standard_update user task r

/-- C1 as literally stated fails when the requested status is itself
`disputed`: branch 1 of `update_task` wins over dispute resolution.
An owner who is not the assignee then gets `forbidden` instead of the
claimed resolution effect. -/
theorem c1_claim_counterexample :
    update_task
      { id := 1, telegram_id := 10, full_name := "O", role := UserRole.owner }
      { id := 5, title := "t", description := none,
        status := some TaskStatus.disputed,
        dispute_reason := some "r", is_locked := false, creator_id := 1,
        assignee_id := 2, deadline := none, created_at := 0 }
      { status := Patch.set TaskStatus.disputed } = Except.error Err.forbidden := by
  rfl

/-- C1 (amended): an owner resolving a disputed task by requesting any
status other than `disputed` gets the requested status, a cleared
dispute reason, and `is_locked` forced to true exactly when the
requested status is not `done` (on `done` the prior lock is kept). -/
theorem c1_resolve_dispute (user : User) (task : Task) (r : TaskUpdate)
    (s : TaskStatus)
    (hcur : task.status = some TaskStatus.disputed)
    (hrole : user.role = UserRole.owner)
    (hreq : r.status = Patch.set s)
    (hs : s ≠ TaskStatus.disputed) :
    update_task user task r = Except.ok { task with
      status := some s,
      dispute_reason := none,
      is_locked := if s ≠ TaskStatus.done then true else task.is_locked } := by
  unfold update_task
  rw [if_neg (by simp [hreq]; exact fun h => absurd h hs)]
  rw [if_pos (by constructor
                 · exact hcur
                 · simp [hreq, Patch.isSet])]
  rw [if_neg (by simp [hrole])]
  simp [hreq, Patch.getSet]

/-- Concrete run of `c1_resolve_dispute`: resolving to `in_progress`
clears the reason and locks the task. -/
theorem c1_resolve_dispute_witness :
    update_task
      { id := 1, telegram_id := 10, full_name := "O", role := UserRole.owner }
      { id := 5, title := "t", description := none,
        status := some TaskStatus.disputed,
        dispute_reason := some "r", is_locked := false, creator_id := 1,
        assignee_id := 2, deadline := none, created_at := 0 }
      { status := Patch.set TaskStatus.in_progress } = Except.ok
      { id := 5, title := "t", description := none,
        status := some TaskStatus.in_progress,
        dispute_reason := none, is_locked := true, creator_id := 1,
        assignee_id := 2, deadline := none, created_at := 0 } := by
  have h := c1_resolve_dispute
    { id := 1, telegram_id := 10, full_name := "O", role := UserRole.owner }
    { id := 5, title := "t", description := none,
      status := some TaskStatus.disputed,
      dispute_reason := some "r", is_locked := false, creator_id := 1,
      assignee_id := 2, deadline := none, created_at := 0 }
    { status := Patch.set TaskStatus.in_progress }
    TaskStatus.in_progress rfl rfl rfl (by decide)
  simpa using h

/-- C2: a dispute-raise request (`status = disputed`) fails with
`forbidden` when the requester is not the assignee, and with
`invalidState` when the requester is the assignee but the task is
locked; both outcomes are errors, so the task is left unmodified. -/
theorem c2_raise_dispute_guards (user : User) (task : Task) (r : TaskUpdate)
    (hreq : r.status = Patch.set TaskStatus.disputed) :
    (task.assignee_id ≠ user.id →
      update_task user task r = Except.error Err.forbidden) ∧
    (task.assignee_id = user.id → task.is_locked = true →
      update_task user task r = Except.error Err.invalidState) := by
  constructor
  · intro hne
    unfold update_task
    rw [if_pos hreq, if_pos hne]
  · intro heq hlock
    unfold update_task
    rw [if_pos hreq, if_neg (by simp [heq]), if_pos hlock]

/-- Concrete run of `c2_raise_dispute_guards`: a non-assignee raise is
`forbidden`; an assignee raise on a locked task is `invalidState`. -/
theorem c2_raise_dispute_guards_witness :
    update_task
      { id := 3, telegram_id := 30, full_name := "W", role := UserRole.worker }
      { id := 5, title := "t", description := none, status := some TaskStatus.todo,
        dispute_reason := none, is_locked := false, creator_id := 1,
        assignee_id := 2, deadline := none, created_at := 0 }
      { status := Patch.set TaskStatus.disputed } = Except.error Err.forbidden ∧
    update_task
      { id := 2, telegram_id := 20, full_name := "V", role := UserRole.worker }
      { id := 6, title := "u", description := none, status := some TaskStatus.todo,
        dispute_reason := none, is_locked := true, creator_id := 1,
        assignee_id := 2, deadline := none, created_at := 0 }
      { status := Patch.set TaskStatus.disputed } = Except.error Err.invalidState := by
  constructor
  · exact (c2_raise_dispute_guards
      { id := 3, telegram_id := 30, full_name := "W", role := UserRole.worker }
      { id := 5, title := "t", description := none, status := some TaskStatus.todo,
        dispute_reason := none, is_locked := false, creator_id := 1,
        assignee_id := 2, deadline := none, created_at := 0 }
      { status := Patch.set TaskStatus.disputed } rfl).1 (by decide)
  · exact (c2_raise_dispute_guards
      { id := 2, telegram_id := 20, full_name := "V", role := UserRole.worker }
      { id := 6, title := "u", description := none, status := some TaskStatus.todo,
        dispute_reason := none, is_locked := true, creator_id := 1,
        assignee_id := 2, deadline := none, created_at := 0 }
      { status := Patch.set TaskStatus.disputed } rfl).2 rfl rfl

/-- C3: a worker updating a task assigned to them, outside the
dispute-raise and dispute-resolve rules, succeeds and changes the
status field at most — supplied title/description/deadline/
dispute_reason values are silently ignored. -/
theorem c3_worker_only_status (user : User) (task : Task) (r : TaskUpdate)
    (hrole : user.role = UserRole.worker)
    (hassign : task.assignee_id = user.id)
    (hnotraise : r.status ≠ Patch.set TaskStatus.disputed)
    (hnotresolve : ¬ (task.status = some TaskStatus.disputed ∧ r.status.isSet = true)) :
    update_task user task r =
      Except.ok { task with status := r.status.getSet task.status } := by
  unfold update_task
  rw [if_neg hnotraise, if_neg hnotresolve]
  unfold standard_update
  rw [if_pos hrole, if_neg (by simp [hassign])]

/-- Concrete run of `c3_worker_only_status`: a worker PATCH supplying
status, title, description, deadline and dispute_reason changes only
the status. -/
theorem c3_worker_only_status_witness :
    update_task
      { id := 2, telegram_id := 20, full_name := "W", role := UserRole.worker }
      { id := 5, title := "t", description := some "d",
        status := some TaskStatus.todo,
        dispute_reason := none, is_locked := false, creator_id := 1,
        assignee_id := 2, deadline := some 9, created_at := 0 }
      { status := Patch.set TaskStatus.done, title := Patch.set "evil",
        description := Patch.set "evil", deadline := Patch.set 1,
        dispute_reason := Patch.set "evil" } = Except.ok
      { id := 5, title := "t", description := some "d",
        status := some TaskStatus.done,
        dispute_reason := none, is_locked := false, creator_id := 1,
        assignee_id := 2, deadline := some 9, created_at := 0 } := by
  have h := c3_worker_only_status
    { id := 2, telegram_id := 20, full_name := "W", role := UserRole.worker }
    { id := 5, title := "t", description := some "d",
      status := some TaskStatus.todo,
      dispute_reason := none, is_locked := false, creator_id := 1,
      assignee_id := 2, deadline := some 9, created_at := 0 }
    { status := Patch.set TaskStatus.done, title := Patch.set "evil",
      description := Patch.set "evil", deadline := Patch.set 1,
      dispute_reason := Patch.set "evil" }
    rfl rfl (by decide) (by decide)
  simpa [Patch.getSet] using h

/-- `auth_user` handler body after token validation (`main.py` lines
72-83): resolve the user by telegram id, creating it (role `owner` iff
the id equals `OWNER_ID`, else `worker`) when absent, otherwise
refreshing the name and re-forcing `owner` for the configured owner
identity.  Returns the updated store and the resulting record.  Row ids
are generated as `users.length + 1`, standing in for the database
autoincrement. -/
def auth_user (ownerId : Int) (users : List User) (tgId : Int)
    (fullName : String) : List User × User :=
  match users.find? (fun u => u.telegram_id == tgId) with
  | none =>
      let role := if tgId == ownerId then UserRole.owner else UserRole.worker
      let u : User := { id := users.length + 1, telegram_id := tgId,
                        full_name := fullName, role := role }
      (users ++ [u], u)
  | some u =>
      let u' : User := { u with
        full_name := fullName,
        role := if tgId == ownerId then UserRole.owner else u.role }
      (users.map (fun v => if v.telegram_id == tgId then u' else v), u')

/-- `cmd_start` bot handler (`main.py` lines 195-202): creates the user
if absent (role `owner` iff the id equals `OWNER_ID`); an existing user
is left entirely untouched. -/
def cmd_start (ownerId : Int) (users : List User) (tgId : Int)
    (fullName : String) : List User :=
  match users.find? (fun u => u.telegram_id == tgId) with
  | none =>
      let role := if tgId == ownerId then UserRole.owner else UserRole.worker
      users ++ [{ id := users.length + 1, telegram_id := tgId,
                  full_name := fullName, role := role }]
  | some _ => users

/-- `update_user_role` handler body after token validation (`main.py`
lines 90-98): the gate compares the acting identity's telegram id with
`OWNER_ID`; then a missing target or a target whose telegram id is
`OWNER_ID` is rejected; otherwise the target's role is replaced. -/
def update_user_role (ownerId : Int) (actingTgId : Int) (users : List User)
    (targetId : Nat) (newRole : UserRole) : Except Err (List User) :=
  if actingTgId ≠ ownerId then Except.error Err.forbidden
  else
    match users.find? (fun u => u.id == targetId) with
    | none => Except.error Err.invalidTarget
    | some u =>
        if u.telegram_id == ownerId then Except.error Err.invalidTarget
        else Except.ok (users.map (fun v =>
          if v.id == targetId then { v with role := newRole } else v))

/-- C4: `auth_user` called for the configured owner identity always
returns a record with role `owner` and the freshly supplied display
name, whatever was stored before. -/
theorem c4_owner_identity_enforced (ownerId : Int) (users : List User)
    (fullName : String) :
    (auth_user ownerId users ownerId fullName).2.role = UserRole.owner ∧
    (auth_user ownerId users ownerId fullName).2.full_name = fullName := by
  unfold auth_user
  cases h : users.find? (fun u => u.telegram_id == ownerId) with
  | none => simp
  | some u => simp

/-- C6 as literally stated fails: the gate tests the acting identity's
telegram id against `OWNER_ID`, not the acting user's role.  A stored
user with role `owner` but telegram id 5 ≠ 7 is rejected with
`forbidden`. -/
theorem c6_claim_counterexample :
    (([{ id := 1, telegram_id := 5, full_name := "A", role := UserRole.owner },
       { id := 2, telegram_id := 6, full_name := "B", role := UserRole.worker }] :
        List User).find? (fun u => u.telegram_id == 5)).map (fun u => u.role) =
      some UserRole.owner ∧
    update_user_role 7 5
      [{ id := 1, telegram_id := 5, full_name := "A", role := UserRole.owner },
       { id := 2, telegram_id := 6, full_name := "B", role := UserRole.worker }]
      2 UserRole.admin = Except.error Err.forbidden := by
  exact ⟨by decide, rfl⟩

/-- C6 (amended): the role-change gate is decided by the acting
identity's telegram id alone — any id other than the configured owner
identity is `forbidden`, and the owner identity is never `forbidden`
(the remaining outcomes being success or `invalidTarget`). -/
theorem c6_role_change_gate (ownerId actingTgId : Int) (users : List User)
    (targetId : Nat) (newRole : UserRole) :
    (actingTgId ≠ ownerId →
      update_user_role ownerId actingTgId users targetId newRole =
        Except.error Err.forbidden) ∧
    (actingTgId = ownerId →
      update_user_role ownerId actingTgId users targetId newRole ≠
        Except.error Err.forbidden) := by
  constructor
  · intro hne
    unfold update_user_role
    rw [if_pos hne]
  · intro heq
    unfold update_user_role
    rw [if_neg (by simp [heq])]
    cases h : users.find? (fun u => u.id == targetId) with
    | none => simp
    | some u =>
        by_cases hu : u.telegram_id == ownerId
        · simp [hu]
        · simp [hu]

/-- Concrete run of `c6_role_change_gate`: an acting id of 5 against a
configured owner id of 7 is rejected. -/
theorem c6_role_change_gate_witness :
    update_user_role 7 5 [] 2 UserRole.admin = Except.error Err.forbidden :=
  (c6_role_change_gate 7 5 [] 2 UserRole.admin).1 (by decide)

/-- C9 as literally stated fails for returning users: `cmd_start`
leaves an existing record untouched, while `auth_user` refreshes the
name and re-forces the owner role.  With owner identity 7 and a stored
record (worker, "old"), `cmd_start` keeps it as is but `auth_user`
yields (owner, "new"). -/
theorem c9_claim_counterexample :
    cmd_start 7 [{ id := 1, telegram_id := 7, full_name := "old",
                   role := UserRole.worker }] 7 "new" =
      [{ id := 1, telegram_id := 7, full_name := "old", role := UserRole.worker }] ∧
    (auth_user 7 [{ id := 1, telegram_id := 7, full_name := "old",
                    role := UserRole.worker }] 7 "new").2 =
      { id := 1, telegram_id := 7, full_name := "new", role := UserRole.owner } := by
  exact ⟨rfl, rfl⟩

/-- C9 (amended): for a new identity `cmd_start` performs exactly the
resolve-or-create of `auth_user` (the stores agree); for a returning
identity `cmd_start` leaves the store unchanged, with no name refresh
and no owner-role enforcement. -/
theorem c9_cmd_start_refines_auth (ownerId : Int) (users : List User)
    (tgId : Int) (fullName : String) :
    (users.find? (fun u => u.telegram_id == tgId) = none →
      cmd_start ownerId users tgId fullName =
        (auth_user ownerId users tgId fullName).1) ∧
    (∀ u, users.find? (fun u => u.telegram_id == tgId) = some u →
      cmd_start ownerId users tgId fullName = users) := by
  constructor
  · intro h
    unfold cmd_start auth_user
    rw [h]
  · intro u h
    unfold cmd_start
    rw [h]

/-- Concrete run of `c9_cmd_start_refines_auth`: on an empty store the
two front doors create the same record. -/
theorem c9_cmd_start_refines_auth_witness :
    cmd_start 7 [] 9 "N" = (auth_user 7 [] 9 "N").1 :=
  (c9_cmd_start_refines_auth 7 [] 9 "N").1 rfl

/-- `create_task` handler body after token validation (`main.py` lines
120-134): admins and owners only; the new row takes the database
defaults `status = todo`, `dispute_reason = NULL`, `is_locked = false`. -/
def create_task (creator : User) (title : String) (description : Option String)
    (assigneeId : Nat) (deadline : Option Nat) (freshId : Nat)
    (now : Nat) : Except Err Task :=
  if creator.role ≠ UserRole.admin ∧ creator.role ≠ UserRole.owner then
    Except.error Err.forbidden
  else Except.ok
    { id := freshId, title := title, description := description,
      status := some TaskStatus.todo, dispute_reason := none,
      is_locked := false, creator_id := creator.id, assignee_id := assigneeId,
      deadline := deadline, created_at := now }

/-- A dispute reason counts as populated when it is present and
non-empty. -/
def reason_populated (o : Option String) : Prop := o.getD "" ≠ ""

/-- The §3 invariant relating `dispute_reason` to the status. -/
def dispute_invariant (t : Task) : Prop :=
  reason_populated t.dispute_reason ↔ t.status = some TaskStatus.disputed

/-- C5 as literally stated fails in two ways.  First, a dispute-raise
request that supplies no `dispute_reason` succeeds and produces a task
whose status is `disputed` while `dispute_reason` is absent.  Second,
an admin PATCH sending an explicitly-null `status` on a disputed task
passes both dispute branches (a null field is falsy), survives
`dict(exclude_unset=True)`, and `setattr` persists a `NULL` status
while the dispute reason stays populated. -/
theorem c5_claim_counterexample :
    (update_task
      { id := 2, telegram_id := 20, full_name := "W", role := UserRole.worker }
      { id := 5, title := "t", description := none, status := some TaskStatus.todo,
        dispute_reason := none, is_locked := false, creator_id := 1,
        assignee_id := 2, deadline := none, created_at := 0 }
      { status := Patch.set TaskStatus.disputed } = Except.ok
      { id := 5, title := "t", description := none,
        status := some TaskStatus.disputed,
        dispute_reason := none, is_locked := false, creator_id := 1,
        assignee_id := 2, deadline := none, created_at := 0 } ∧
    ¬ dispute_invariant
      { id := 5, title := "t", description := none,
        status := some TaskStatus.disputed,
        dispute_reason := none, is_locked := false, creator_id := 1,
        assignee_id := 2, deadline := none, created_at := 0 }) ∧
    (update_task
      { id := 1, telegram_id := 10, full_name := "A", role := UserRole.admin }
      { id := 6, title := "u", description := none,
        status := some TaskStatus.disputed,
        dispute_reason := some "blocked", is_locked := false, creator_id := 1,
        assignee_id := 2, deadline := none, created_at := 0 }
      { status := Patch.null } = Except.ok
      { id := 6, title := "u", description := none, status := none,
        dispute_reason := some "blocked", is_locked := false, creator_id := 1,
        assignee_id := 2, deadline := none, created_at := 0 } ∧
    ¬ dispute_invariant
      { id := 6, title := "u", description := none, status := none,
        dispute_reason := some "blocked", is_locked := false, creator_id := 1,
        assignee_id := 2, deadline := none, created_at := 0 }) := by
  refine ⟨⟨rfl, ?_⟩, rfl, ?_⟩
  · intro h
    exact absurd (h.2 rfl) (by simp [reason_populated])
  · intro h
    exact absurd (h.1 (by simp [reason_populated])) (by simp)

/-- C5 (amended): the invariant "`dispute_reason` populated iff status
is `disputed`" is established by `create_task` and preserved by every
successful `update_task`, provided each dispute-raise request supplies
a non-empty reason and no request explicitly nulls the `status` field
of a disputed task; the code enforces neither proviso. -/
theorem c5_dispute_reason_invariant :
    (∀ creator title description assigneeId deadline freshId now t,
      create_task creator title description assigneeId deadline freshId now =
        Except.ok t → dispute_invariant t) ∧
    (∀ (user : User) (task : Task) (r : TaskUpdate) (t' : Task),
      dispute_invariant task →
      (r.status = Patch.set TaskStatus.disputed →
        reason_populated r.dispute_reason.toOption) →
      (r.status = Patch.null → task.status ≠ some TaskStatus.disputed) →
      update_task user task r = Except.ok t' → dispute_invariant t') := by
  constructor
  · intro creator title description assigneeId deadline freshId now t h
    unfold create_task at h
    by_cases hc : creator.role ≠ UserRole.admin ∧ creator.role ≠ UserRole.owner
    · rw [if_pos hc] at h; exact absurd h (by simp)
    · rw [if_neg hc] at h
      cases h
      simp [dispute_invariant, reason_populated]
  · intro user task r t' hinv hraise hnull h
    unfold update_task at h
    by_cases h1 : r.status = Patch.set TaskStatus.disputed
    · rw [if_pos h1] at h
      by_cases ha : task.assignee_id ≠ user.id
      · rw [if_pos ha] at h; exact absurd h (by simp)
      · rw [if_neg ha] at h
        by_cases hl : task.is_locked
        · rw [if_pos hl] at h; exact absurd h (by simp)
        · rw [if_neg hl] at h
          cases h
          simpa [dispute_invariant] using hraise h1
    · rw [if_neg h1] at h
      by_cases h2 : task.status = some TaskStatus.disputed ∧ r.status.isSet = true
      · rw [if_pos h2] at h
        by_cases ho : user.role ≠ UserRole.owner
        · rw [if_pos ho] at h; exact absurd h (by simp)
        · rw [if_neg ho] at h
          cases h
          have hs : r.status.getSet task.status ≠ some TaskStatus.disputed := by
            cases hr : r.status with
            | unset => rw [hr] at h2; exact absurd h2.2 (by simp [Patch.isSet])
            | null => rw [hr] at h2; exact absurd h2.2 (by simp [Patch.isSet])
            | set s =>
                rw [hr] at h1
                simp only [Patch.getSet, Option.some_inj, ne_eq]
                exact fun heq => h1 (by rw [heq])
          simp [dispute_invariant, reason_populated, hs]
      · rw [if_neg h2] at h
        unfold standard_update at h
        have hset : ∀ s, r.status = Patch.set s →
            s ≠ TaskStatus.disputed ∧ task.status ≠ some TaskStatus.disputed := by
          intro s hr
          constructor
          · intro hs; rw [hr, hs] at h1; exact h1 rfl
          · intro hts; exact h2 ⟨hts, by simp [hr, Patch.isSet]⟩
        by_cases hw : user.role = UserRole.worker
        · rw [if_pos hw] at h
          by_cases ha : task.assignee_id ≠ user.id
          · rw [if_pos ha] at h; exact absurd h (by simp)
          · rw [if_neg ha] at h
            cases h
            cases hr : r.status with
            | unset => simpa [dispute_invariant, Patch.getSet, hr] using hinv
            | null => simpa [dispute_invariant, Patch.getSet, hr] using hinv
            | set s =>
                obtain ⟨hs1, hs2⟩ := hset s hr
                have hnp : ¬ reason_populated task.dispute_reason :=
                  fun hp => hs2 (hinv.mp hp)
                simp [dispute_invariant, Patch.getSet, hr, hs1, hnp]
        · rw [if_neg hw] at h
          by_cases htit : r.title = Patch.null
          · rw [if_pos htit] at h; exact absurd h (by simp)
          · rw [if_neg htit] at h
            cases h
            cases hr : r.status with
            | unset => simpa [dispute_invariant, Patch.setattr, hr] using hinv
            | null =>
                have hns := hnull hr
                have hnp : ¬ reason_populated task.dispute_reason :=
                  fun hp => hns (hinv.mp hp)
                simp [dispute_invariant, Patch.setattr, hr, hnp]
            | set s =>
                obtain ⟨hs1, hs2⟩ := hset s hr
                have hnp : ¬ reason_populated task.dispute_reason :=
                  fun hp => hs2 (hinv.mp hp)
                simp [dispute_invariant, Patch.setattr, hr, hs1, hnp]

/-- Concrete run of `c5_dispute_reason_invariant`: a raise that does
supply a reason keeps the invariant. -/
theorem c5_dispute_reason_invariant_witness :
    dispute_invariant
      { id := 5, title := "t", description := none,
        status := some TaskStatus.disputed,
        dispute_reason := some "blocked", is_locked := false, creator_id := 1,
        assignee_id := 2, deadline := none, created_at := 0 } := by
  refine c5_dispute_reason_invariant.2
    { id := 2, telegram_id := 20, full_name := "W", role := UserRole.worker }
    { id := 5, title := "t", description := none, status := some TaskStatus.todo,
      dispute_reason := none, is_locked := false, creator_id := 1,
      assignee_id := 2, deadline := none, created_at := 0 }
    { status := Patch.set TaskStatus.disputed,
      dispute_reason := Patch.set "blocked" }
    _ (by simp [dispute_invariant, reason_populated])
    (fun _ => by simp [reason_populated, Patch.toOption])
    (fun hr => absurd hr (by decide)) rfl

/-- One entry of the `GET /api/tasks` response (`main.py` lines
112-117). -/
structure TaskView where
  id : Nat
  title : String
  description : Option String
  status : Option TaskStatus
  deadline : Option Nat
  assignee_name : String
  is_mine : Bool
  is_locked : Bool
  dispute_reason : Option String
deriving DecidableEq, Repr

/-- `ORDER BY deadline ASC` comparison; SQLite sorts NULLs first on an
ascending order. -/
def deadline_le (a b : Option Nat) : Bool :=
  match a, b with
  | none, _ => true
  | some _, none => false
  | some x, some y => x ≤ y

/-- Deadline order lifted to tasks. -/
def taskLe (a b : Task) : Prop := deadline_le a.deadline b.deadline = true

instance : DecidableRel taskLe := fun _ _ => instDecidableEqBool _ _

/-- The response entry built for one task (`main.py` lines 111-117):
assignee name resolved (or "Unknown"), `is_mine` computed against the
requesting user, and the dispute reason redacted for workers looking at
tasks not assigned to them. -/
def task_view (users : List User) (user : User) (t : Task) : TaskView :=
  { id := t.id, title := t.title, description := t.description,
    status := t.status, deadline := t.deadline,
    assignee_name :=
      match users.find? (fun a => a.id == t.assignee_id) with
      | some a => a.full_name
      | none => "Unknown",
    is_mine := t.assignee_id == user.id,
    is_locked := t.is_locked,
    dispute_reason :=
      if user.role ≠ UserRole.worker ∨ t.assignee_id = user.id then
        t.dispute_reason
      else none }

/-- `get_tasks` handler body after token validation and user lookup
(`main.py` lines 105-118): order by deadline, restrict to the user's
own assignments when the user is a worker or `filter=mine` was set,
then build the response entries. -/
def get_tasks (users : List User) (tasks : List Task) (user : User)
    (filterMine : Bool) : List TaskView :=
  let sorted := List.insertionSort taskLe tasks
  let sel :=
    if user.role = UserRole.worker ∨ filterMine = true then
      sorted.filter (fun t => t.assignee_id == user.id)
    else sorted
  sel.map (task_view users user)

/-- C7: a worker's task listing — with or without `filter=mine` —
consists exactly of the views of the tasks assigned to that worker, and
every entry carries `is_mine = true`. -/
theorem c7_worker_listing (users : List User) (tasks : List Task)
    (user : User) (fm : Bool) (hrole : user.role = UserRole.worker) :
    (∀ v ∈ get_tasks users tasks user fm, v.is_mine = true) ∧
    (∀ t ∈ tasks, t.assignee_id = user.id →
      task_view users user t ∈ get_tasks users tasks user fm) ∧
    (∀ v ∈ get_tasks users tasks user fm,
      ∃ t, t ∈ tasks ∧ t.assignee_id = user.id ∧ v = task_view users user t) := by
  have hmem : ∀ t : Task, t ∈ List.insertionSort taskLe tasks ↔ t ∈ tasks :=
    fun t => (List.perm_insertionSort taskLe tasks).mem_iff
  have hget : get_tasks users tasks user fm =
      ((List.insertionSort taskLe tasks).filter
        (fun t => t.assignee_id == user.id)).map (task_view users user) := by
    simp only [get_tasks]
    rw [if_pos (Or.inl hrole)]
  refine ⟨?_, ?_, ?_⟩
  · intro v hv
    rw [hget] at hv
    rcases List.mem_map.mp hv with ⟨t, ht, rfl⟩
    have := (List.mem_filter.mp ht).2
    simpa [task_view] using this
  · intro t ht hassign
    rw [hget]
    exact List.mem_map.mpr ⟨t,
      List.mem_filter.mpr ⟨(hmem t).mpr ht, by simpa using hassign⟩, rfl⟩
  · intro v hv
    rw [hget] at hv
    rcases List.mem_map.mp hv with ⟨t, ht, rfl⟩
    obtain ⟨hts, hta⟩ := List.mem_filter.mp ht
    exact ⟨t, (hmem t).mp hts, by simpa using hta, rfl⟩

/-- Concrete run of `c7_worker_listing`: the view of a task assigned
to the requesting worker is listed and carries `is_mine = true`. -/
theorem c7_worker_listing_witness :
    (task_view
      [{ id := 2, telegram_id := 20, full_name := "W", role := UserRole.worker }]
      { id := 2, telegram_id := 20, full_name := "W", role := UserRole.worker }
      { id := 5, title := "a", description := none, status := some TaskStatus.todo,
        dispute_reason := none, is_locked := false, creator_id := 1,
        assignee_id := 2, deadline := some 3, created_at := 0 }).is_mine = true := by
  refine (c7_worker_listing
    [{ id := 2, telegram_id := 20, full_name := "W", role := UserRole.worker }]
    [{ id := 5, title := "a", description := none, status := some TaskStatus.todo,
       dispute_reason := none, is_locked := false, creator_id := 1,
       assignee_id := 2, deadline := some 3, created_at := 0 }]
    { id := 2, telegram_id := 20, full_name := "W", role := UserRole.worker }
    false rfl).1 _ ?_
  have h : get_tasks
      [{ id := 2, telegram_id := 20, full_name := "W", role := UserRole.worker }]
      [{ id := 5, title := "a", description := none, status := some TaskStatus.todo,
         dispute_reason := none, is_locked := false, creator_id := 1,
         assignee_id := 2, deadline := some 3, created_at := 0 }]
      { id := 2, telegram_id := 20, full_name := "W", role := UserRole.worker }
      false =
      [task_view
        [{ id := 2, telegram_id := 20, full_name := "W", role := UserRole.worker }]
        { id := 2, telegram_id := 20, full_name := "W", role := UserRole.worker }
        { id := 5, title := "a", description := none, status := some TaskStatus.todo,
          dispute_reason := none, is_locked := false, creator_id := 1,
          assignee_id := 2, deadline := some 3, created_at := 0 }] := rfl
  rw [h]
  exact List.mem_singleton_self _

/-- The identity claim embedded in the signed token (`main.py` reads
`id`, `first_name`, `last_name` from the decoded `user` field). -/
structure TgUser where
  id : Int
  first_name : String
  last_name : String
deriving DecidableEq, Repr

/-- Code-point lexicographic order on character lists, the order Python
`sorted` uses on strings. -/
def charsLe : List Char → List Char → Bool
  | [], _ => true
  | _ :: _, [] => false
  | x :: xs, y :: ys =>
      if x.toNat < y.toNat then true
      else if y.toNat < x.toNat then false
      else charsLe xs ys

/-- Lexicographic order on strings via their character lists. -/
def strLe (a b : String) : Bool := charsLe a.data b.data

/-- Key order on key/value pairs, as in `sorted(parsed_data.items())`. -/
def pairLe (a b : String × String) : Prop := strLe a.1 b.1 = true

instance : DecidableRel pairLe := fun _ _ => instDecidableEqBool _ _

/-- `validate_telegram_data` (`main.py` lines 53-61).  The external
pieces are parameters: `hmacHexDigest key msg` stands for
`hmac.new(key, msg, sha256)`'s digest, `parseQs` for
`dict(parse_qsl(...))` as an ordered item list (`none` on a parse
error), and `decodeUser` for `json.loads` of the `user` field.  The
body mirrors the source: pop the `hash` field, serialize the remaining
pairs sorted by key joined with newlines, derive the secret key from
the literal "WebAppData" and the bot token, compare digests, then
decode the `user` field; the enclosing `try/except` turns every failure
into the single `authFailed` outcome. -/
def validate_telegram_data (hmacHexDigest : String → String → String)
    (parseQs : String → Option (List (String × String)))
    (decodeUser : String → Option TgUser)
    (botToken : String) (initData : String) : Except Err TgUser :=
  match parseQs initData with
  | none => Except.error Err.authFailed
  | some pairs =>
    match pairs.find? (fun p => p.1 == "hash") with
    | none => Except.error Err.authFailed
    | some hp =>
      let rest := pairs.filter (fun p => !(p.1 == "hash"))
      let dcs := String.intercalate "\n"
        ((List.insertionSort pairLe rest).map (fun p => p.1 ++ "=" ++ p.2))
      let secretKey := hmacHexDigest "WebAppData" botToken
      if hmacHexDigest secretKey dcs ≠ hp.2 then Except.error Err.authFailed
      else
        match pairs.find? (fun p => p.1 == "user") with
        | none => Except.error Err.authFailed
        | some up =>
          match decodeUser up.2 with
          | none => Except.error Err.authFailed
          | some u => Except.ok u

/-- C8: the verifier has exactly two outcomes — either the uniform
`authFailed` (for parse errors, a missing `hash` field, a signature
mismatch, or an undecodable `user` claim alike), or success carrying
exactly the identity claim decoded from the token's `user` field. -/
theorem c8_verifier_two_outcomes (hmacHexDigest : String → String → String)
    (parseQs : String → Option (List (String × String)))
    (decodeUser : String → Option TgUser)
    (botToken : String) (initData : String) :
    validate_telegram_data hmacHexDigest parseQs decodeUser botToken initData =
      Except.error Err.authFailed ∨
    ∃ pairs up u, parseQs initData = some pairs ∧
      pairs.find? (fun p => p.1 == "user") = some up ∧
      decodeUser up.2 = some u ∧
      validate_telegram_data hmacHexDigest parseQs decodeUser botToken initData =
        Except.ok u := by
  unfold validate_telegram_data
  cases hp : parseQs initData with
  | none => left; rfl
  | some pairs =>
    cases hh : pairs.find? (fun p => p.1 == "hash") with
    | none => left; simp only [hh]
    | some hpr =>
      simp only [hh]
      by_cases hsig : hmacHexDigest (hmacHexDigest "WebAppData" botToken)
          (String.intercalate "\n"
            ((List.insertionSort pairLe
              (pairs.filter (fun p => !(p.1 == "hash")))).map
              (fun p => p.1 ++ "=" ++ p.2))) ≠ hpr.2
      · rw [if_pos hsig]; left; rfl
      · rw [if_neg hsig]
        cases hu : pairs.find? (fun p => p.1 == "user") with
        | none => left; simp only [hu]
        | some up =>
          simp only [hu]
          cases hd : decodeUser up.2 with
          | none => left; simp only [hd]
          | some u =>
            simp only [hd]
            right
            exact ⟨pairs, up, u, rfl, hu, hd, rfl⟩

/-- `GET /api/tasks` including the user lookup that follows token
validation (`main.py` lines 101-108): when the authenticated telegram
id has no stored user, the handler dereferences `None`
(`user.role`), modelled by the out-of-taxonomy outcome `attrError`. -/
def get_tasks_endpoint (users : List User) (tasks : List Task)
    (tgId : Int) (filterMine : Bool) : Except Err (List TaskView) :=
  match users.find? (fun u => u.telegram_id == tgId) with
  | none => Except.error Err.attrError
  | some u => Except.ok (get_tasks users tasks u filterMine)

/-- C10: a task-listing request whose token verifies but whose identity
has no stored user record hits the `None` dereference, an outcome that
is none of the documented taxonomy errors; the handler is total only
under the precondition that the user record exists. -/
theorem c10_missing_user_not_taxonomy (users : List User) (tasks : List Task)
    (tgId : Int) (fm : Bool)
    (h : users.find? (fun u => u.telegram_id == tgId) = none) :
    get_tasks_endpoint users tasks tgId fm = Except.error Err.attrError ∧
    ∀ e, (e = Err.authFailed ∨ e = Err.forbidden ∨ e = Err.notFound ∨
          e = Err.invalidState ∨ e = Err.invalidTarget) →
      get_tasks_endpoint users tasks tgId fm ≠ Except.error e := by
  have hrun : get_tasks_endpoint users tasks tgId fm = Except.error Err.attrError := by
    unfold get_tasks_endpoint
    rw [h]
  refine ⟨hrun, ?_⟩
  intro e he hcontra
  rw [hrun] at hcontra
  cases hcontra
  rcases he with h1 | h1 | h1 | h1 | h1 <;> exact absurd h1 (by simp)

/-- Concrete run of `c10_missing_user_not_taxonomy`: an empty user
store yields the out-of-taxonomy outcome. -/
theorem c10_missing_user_not_taxonomy_witness :
    get_tasks_endpoint [] [] 9 false = Except.error Err.attrError :=
  (c10_missing_user_not_taxonomy [] [] 9 false rfl).1

end TgJob
